import Mathlib

/-!
Shallow embedding of the `bookstack-demo` CDK application (TypeScript, AWS CDK v2).

The repository declares infrastructure: a data stack (Aurora MySQL cluster with a
generated Secrets Manager credential), an application stack (S3 bucket, ECS Fargate
service, ALB with HTTP-to-HTTPS redirect, Route 53 alias record), a regional stage
ordering the two, and a CodePipeline-based CI/CD pipeline.  Each stack constructor
is embedded as a pure Lean function from its props (and the deploy-time resolved
values such as the VPC CIDR, secret name, cluster endpoint and bucket name, which
are opaque tokens at synthesis time) to a configuration record mirroring the
resource properties set in the source.
-/

namespace Bookstack

/-! ## Globals (`cdk/src/globals.mts`) -/

/-- Enum `AwsRegion` from `globals.mts`. -/
inductive AwsRegion
  | virginia
  | ohio
  | oregon
  deriving DecidableEq, Inhabited

/-- String value of each `AwsRegion` member. -/
def AwsRegion.code : AwsRegion → String
  | .virginia => "us-east-1"
  | .ohio => "us-east-2"
  | .oregon => "us-west-2"

/-- Enum `Vpc` from `globals.mts` (known VPC IDs for lookups). -/
inductive Vpc
  | devOregon
  deriving DecidableEq, Inhabited

/-- String value of each `Vpc` member. -/
def Vpc.id : Vpc → String
  | .devOregon => "vpc-06f99c19165a865f5"

/-- Enum `AppUrl` from `globals.mts` (application endpoint hostnames). -/
inductive AppUrl
  | devOregon
  deriving DecidableEq, Inhabited

/-- String value of each `AppUrl` member. -/
def AppUrl.host : AppUrl → String
  | .devOregon => "bookstack.pjain.dev.truemark.io"

/-- Enum `Zone` from `globals.mts` (Route53 zones used by each environment). -/
inductive Zone
  | dev
  deriving DecidableEq, Inhabited

/-- String value of each `Zone` member. -/
def Zone.name : Zone → String
  | .dev => "pjain.dev.truemark.io"

/-- Type `Env` from `globals.mts`. -/
inductive Env
  | dev
  | stage
  | prod
  deriving DecidableEq, Inhabited

/-- Type `LogLevel` from `globals.mts`. -/
inductive LogLevel
  | trace
  | debug
  | info
  | warn
  | error
  | fatal
  deriving DecidableEq, Inhabited

/-! ## CDK library values used by the stacks -/

/-- The `aws-cdk-lib` `RemovalPolicy` enum (the members this app can mention). -/
inductive RemovalPolicy
  | destroy
  | retain
  | snapshot
  deriving DecidableEq, Inhabited

/-- String value of each `RemovalPolicy` member (a TypeScript string enum). -/
def RemovalPolicy.value : RemovalPolicy → String
  | .destroy => "destroy"
  | .retain => "retain"
  | .snapshot => "snapshot"

/-- JavaScript truthiness of a `RemovalPolicy` value: a string is truthy iff
nonempty.  Used to embed the `||` operator in `props?.removalPolicy || DESTROY`. -/
def RemovalPolicy.truthy (rp : RemovalPolicy) : Bool := rp.value ≠ ""

/-- Embedding of the JavaScript `a || b` default on an optional removal policy
(`undefined` is falsy; an enum string value is truthy iff nonempty). -/
def jsOrDefault (o : Option RemovalPolicy) (d : RemovalPolicy) : RemovalPolicy :=
  match o with
  | some rp => if rp.truthy then rp else d
  | none => d

/-- Embedding of the JavaScript `a ?? b` default (`undefined`/`null` only). -/
def nullishDefault (o : Option RemovalPolicy) (d : RemovalPolicy) : RemovalPolicy :=
  o.getD d

/-- The `ec2.SubnetType` members this app uses. -/
inductive SubnetType
  | privateIsolated
  | publicFacing
  deriving DecidableEq, Inhabited

/-- A security-group ingress peer: `ec2.Peer.anyIpv4()`, `ec2.Peer.ipv4(cidr)`,
or another security group (referenced by description). -/
inductive IngressPeer
  | anyIpv4
  | ipv4Cidr (cidr : String)
  | securityGroup (sgName : String)
  deriving DecidableEq, Inhabited

/-- One `addIngressRule` call: peer, TCP port, description. -/
structure IngressRule where
  peer : IngressPeer
  tcpPort : Nat
  description : String
  deriving DecidableEq, Inhabited

/-- An `ec2.SecurityGroup` with the properties this app sets. -/
structure SecurityGroupCfg where
  description : String
  allowAllOutbound : Bool
  ingress : List IngressRule
  removalPolicy : RemovalPolicy
  deriving DecidableEq, Inhabited

/-! ## Data stack (`cdk/src/data-stack.mts`) -/

/-- The `generateSecretString` options of the database secret. -/
structure GenerateSecretString where
  templateUsername : String
  generateStringKey : String
  excludePunctuation : Bool
  includeSpace : Bool
  passwordLength : Nat
  deriving DecidableEq, Inhabited

/-- A `secretsmanager.Secret` declaration; `name` is the deploy-time generated
secret name exposed as `secret.secretName`. -/
structure SecretCfg where
  name : String
  generate : GenerateSecretString
  removalPolicy : RemovalPolicy
  deriving DecidableEq, Inhabited

/-- The serverless v2 writer instance of the Aurora cluster. -/
structure ClusterInstanceCfg where
  instanceIdentifier : String
  publiclyAccessible : Bool
  allowMajorVersionUpgrade : Bool
  autoMinorVersionUpgrade : Bool
  deriving DecidableEq, Inhabited

/-- The cluster `backup` property (retention in days, preferred window). -/
structure BackupCfg where
  retentionDays : Nat
  preferredWindow : String
  deriving DecidableEq, Inhabited

/-- An `rds.DatabaseCluster` declaration; `endpointHostname` is the deploy-time
value exposed as `cluster.clusterEndpoint.hostname`. -/
structure DatabaseClusterCfg where
  engineVersion : String
  credentialsSecretName : String
  defaultDatabaseName : String
  subnetType : SubnetType
  storageEncrypted : Bool
  securityGroups : List SecurityGroupCfg
  serverlessV2MinCapacity : Nat
  serverlessV2MaxCapacity : Nat
  writer : ClusterInstanceCfg
  backup : BackupCfg
  preferredMaintenanceWindow : String
  removalPolicy : RemovalPolicy
  deletionProtection : Bool
  endpointHostname : String
  deriving DecidableEq, Inhabited

/-- Props of `DataStack` (`DataStackProps`). -/
structure DataStackProps where
  removalPolicy : Option RemovalPolicy
  appEnv : Env
  logLevel : LogLevel
  zone : Zone
  deriving DecidableEq, Inhabited

/-- Resources declared by the `DataStack` constructor. -/
structure DataStackCfg where
  databaseSecret : SecretCfg
  dbSecurityGroup : SecurityGroupCfg
  parameterGroupRemovalPolicy : RemovalPolicy
  cluster : DatabaseClusterCfg
  deriving DecidableEq, Inhabited

/-- Embedding of the `DataStack` constructor (`data-stack.mts`).  `vpcCidr`,
`secretName` and `endpointHostname` are the deploy-time resolved values of
`vpc.vpcCidrBlock`, `databaseSecret.secretName` and
`cluster.clusterEndpoint.hostname`. -/
def mkDataStack (props : DataStackProps)
    (vpcCidr secretName endpointHostname : String) : DataStackCfg :=
  let databaseSecret : SecretCfg :=
    { name := secretName
      generate :=
        { templateUsername := "bookstack"
          generateStringKey := "password"
          excludePunctuation := true
          includeSpace := false
          passwordLength := 32 }
      removalPolicy := RemovalPolicy.retain }
  let dbSecurityGroup : SecurityGroupCfg :=
    { description := "Security group for Bookstack database"
      allowAllOutbound := true
      ingress :=
        [{ peer := IngressPeer.ipv4Cidr vpcCidr
           tcpPort := 3306
           description := "Allow MySQL from VPC" }]
      removalPolicy := nullishDefault props.removalPolicy RemovalPolicy.destroy }
  { databaseSecret := databaseSecret
    dbSecurityGroup := dbSecurityGroup
    parameterGroupRemovalPolicy := nullishDefault props.removalPolicy RemovalPolicy.destroy
    cluster :=
      { engineVersion := "3.11.0"
        credentialsSecretName := databaseSecret.name
        defaultDatabaseName := "bookstack"
        subnetType := SubnetType.privateIsolated
        storageEncrypted := true
        securityGroups := [dbSecurityGroup]
        serverlessV2MinCapacity := 0
        serverlessV2MaxCapacity := 1
        writer :=
          { instanceIdentifier := "bookstack-writer-01"
            publiclyAccessible := false
            allowMajorVersionUpgrade := false
            autoMinorVersionUpgrade := false }
        backup := { retentionDays := 7, preferredWindow := "03:00-04:00" }
        preferredMaintenanceWindow := "sun:04:00-sun:05:00"
        removalPolicy := jsOrDefault props.removalPolicy RemovalPolicy.destroy
        deletionProtection := true
        endpointHostname := endpointHostname } }

example :
    (mkDataStack ⟨none, Env.dev, LogLevel.info, Zone.dev⟩ "10.0.0.0/16" "s" "h").cluster.removalPolicy
      = RemovalPolicy.destroy := by decide

example :
    (mkDataStack ⟨some RemovalPolicy.retain, Env.dev, LogLevel.info, Zone.dev⟩ "10.0.0.0/16" "s" "h").databaseSecret.removalPolicy
      = RemovalPolicy.retain := by decide

/-! ## Application stack (`cdk/src/app-stack.mts`) -/

/-- The S3 `Bucket` declaration for attachments; `name` is the deploy-time value
exposed as `bucket.bucketName`. -/
structure BucketCfg where
  name : String
  removalPolicy : RemovalPolicy
  autoDeleteObjects : Bool
  publicReadAccess : Bool
  blockPublicAcls : Bool
  blockPublicPolicy : Bool
  ignorePublicAcls : Bool
  restrictPublicBuckets : Bool
  deriving DecidableEq, Inhabited

/-- A container secret binding: `ecs.Secret.fromSecretsManager(secret, field)` or
`ecs.Secret.fromSsmParameter` on a SecureString parameter at a path/version. -/
inductive SecretSource
  | secretsManagerField (secretName jsonField : String)
  | ssmSecureParameter (path : String) (version : Nat)
  deriving DecidableEq, Inhabited

/-- The `StandardFargateService` declaration (task definition shape, environment
variables and secret bindings). -/
structure ServiceCfg where
  serviceName : String
  image : String
  port : Nat
  cpu : Nat
  memoryLimitMiB : Nat
  desiredCount : Nat
  subnetType : SubnetType
  environment : List (String × String)
  secrets : List (String × SecretSource)
  enableRollback : Bool
  enableExecuteCommand : Bool
  cpuArchitecture : String
  deriving DecidableEq, Inhabited

/-- A listener action: the redirect configured as the HTTP listener's default
action, or a forward to a named target group on a target port. -/
inductive ListenerAction
  | redirect (protocol : String) (port : Nat) (permanent : Bool)
  | forward (targetGroup : String) (targetPort : Nat)
  deriving DecidableEq, Inhabited

/-- An ALB listener: its port and the actions attached to it. -/
structure ListenerCfg where
  port : Nat
  openToInternet : Bool
  actions : List ListenerAction
  deriving DecidableEq, Inhabited

/-- The target of a Route 53 record; the app only ever creates an alias to its
own load balancer. -/
inductive RecordTarget
  | albAlias
  deriving DecidableEq, Inhabited

/-- A Route 53 `ARecord` declaration. -/
structure DnsRecordCfg where
  recordName : String
  target : RecordTarget
  deriving DecidableEq, Inhabited

/-- Props of `BookStack` (`BookstackProps`). -/
structure BookstackProps where
  removalPolicy : Option RemovalPolicy
  appEnv : Env
  logLevel : LogLevel
  zone : Zone
  vpcId : String
  databaseHost : String
  databaseSecretName : String
  deriving DecidableEq, Inhabited

/-- Embedding of the JavaScript `String.prototype.replace` with a string pattern:
replaces the first occurrence of `pat` (scanning left to right) by `rep`; the
string is unchanged when `pat` does not occur. -/
def jsReplaceFirstChars (pat rep : List Char) : List Char → List Char
  | [] => if pat = [] then rep else []
  | c :: rest =>
    if pat.isPrefixOf (c :: rest) then rep ++ (c :: rest).drop pat.length
    else c :: jsReplaceFirstChars pat rep rest

/-- String wrapper of `jsReplaceFirstChars`: `s.replace(pat, rep)` in JS. -/
def jsReplaceFirst (s pat rep : String) : String :=
  String.mk (jsReplaceFirstChars pat.toList rep.toList s.toList)

example : jsReplaceFirst "bookstack.pjain.dev.truemark.io" ".pjain.dev.truemark.io" "" = "bookstack" := by decide
example : jsReplaceFirst "a.z.b.z" ".z" "" = "a.b.z" := by decide

/-- The bucket declaration in the `BookStack` constructor (`AssetsBucket`). -/
def mkAssetsBucket (removalPolicy : Option RemovalPolicy) (name : String) : BucketCfg :=
  { name := name
    removalPolicy := nullishDefault removalPolicy RemovalPolicy.destroy
    autoDeleteObjects := true
    publicReadAccess := false
    blockPublicAcls := false
    blockPublicPolicy := true
    ignorePublicAcls := false
    restrictPublicBuckets := true }

/-- Resources declared by the `BookStack` constructor. -/
structure BookStackCfg where
  assetsBucket : BucketCfg
  clusterName : String
  services : List ServiceCfg
  albIngress : List IngressRule
  albInternetFacing : Bool
  albSubnetType : SubnetType
  listeners : List ListenerCfg
  certificateDomain : String
  dnsRecords : List DnsRecordCfg
  serviceIngressFromAlb : List IngressRule
  deriving DecidableEq, Inhabited

/-- Embedding of the `BookStack` constructor (`app-stack.mts`).  `region` is the
stack's resolved region (`this.region`) and `bucketName` the deploy-time name of
the assets bucket. -/
def mkBookStack (props : BookstackProps) (region bucketName : String) : BookStackCfg :=
  let assetsBucket := mkAssetsBucket props.removalPolicy bucketName
  let dbPasswordSecret := SecretSource.secretsManagerField props.databaseSecretName "password"
  let appKeySecret := SecretSource.ssmSecureParameter "/app/bookstack/app_key" 1
  { assetsBucket := assetsBucket
    clusterName := "bookstack-cluster"
    services :=
      [{ serviceName := "bookstack-service"
         image := "ghcr.io/linuxserver/bookstack:latest"
         port := 80
         cpu := 1024
         memoryLimitMiB := 2048
         desiredCount := 1
         subnetType := SubnetType.privateIsolated
         environment :=
           [("APP_LANG", "en"),
            ("APP_URL", "https://" ++ AppUrl.host AppUrl.devOregon),
            ("DB_HOST", props.databaseHost),
            ("DB_USERNAME", "bookstack"),
            ("DB_DATABASE", "bookstack"),
            ("STORAGE_TYPE", "s3"),
            ("STORAGE_S3_BUCKET", assetsBucket.name),
            ("STORAGE_S3_REGION", region)]
         secrets := [("DB_PASSWORD", dbPasswordSecret), ("APP_KEY", appKeySecret)]
         enableRollback := true
         enableExecuteCommand := true
         cpuArchitecture := "ARM64" }]
    albIngress :=
      [{ peer := IngressPeer.anyIpv4, tcpPort := 80, description := "Allow HTTP for redirect" },
       { peer := IngressPeer.anyIpv4, tcpPort := 443, description := "Allow HTTPS" }]
    albInternetFacing := true
    albSubnetType := SubnetType.publicFacing
    listeners :=
      [{ port := 80
         openToInternet := true
         actions := [ListenerAction.redirect "HTTPS" 443 true] },
       { port := 443
         openToInternet := true
         actions := [ListenerAction.forward "EcsTargets" 80] }]
    certificateDomain := AppUrl.host AppUrl.devOregon
    dnsRecords :=
      [{ recordName :=
           jsReplaceFirst (AppUrl.host AppUrl.devOregon) ("." ++ props.zone.name) ""
         target := RecordTarget.albAlias }]
    serviceIngressFromAlb :=
      [{ peer := IngressPeer.securityGroup "AlbSecurityGroup"
         tcpPort := 80
         description := "ALB to ECS service" }] }

/-! ## Regional stage (`cdk/src/regional-stage.mts`) -/

/-- Props of `BookstackStage` (`RegionalStageProps`). -/
structure RegionalStageProps where
  appEnv : Env
  logLevel : LogLevel
  canaryDeploy : Bool
  zone : Zone
  deriving DecidableEq, Inhabited

/-- One stack constructed inside the regional stage, in construction order. -/
inductive StageStack
  | dataLayer (cfg : DataStackCfg)
  | appLayer (props : BookstackProps) (cfg : BookStackCfg)
  deriving DecidableEq, Inhabited

/-- Embedding of the `BookstackStage` constructor (`regional-stage.mts`): first
the `DataStack`, then the `BookStack` wired with the data stack's cluster
endpoint hostname and secret name.  The list order is construction order. -/
def mkBookstackStage (props : RegionalStageProps)
    (vpcCidr secretName endpointHostname bucketName : String) : List StageStack :=
  let data := mkDataStack
    { removalPolicy := none, appEnv := props.appEnv, logLevel := props.logLevel,
      zone := props.zone }
    vpcCidr secretName endpointHostname
  let appProps : BookstackProps :=
    { removalPolicy := none
      appEnv := props.appEnv
      logLevel := props.logLevel
      zone := props.zone
      vpcId := Vpc.id Vpc.devOregon
      databaseHost := data.cluster.endpointHostname
      databaseSecretName := data.databaseSecret.name }
  [StageStack.dataLayer data,
   StageStack.appLayer appProps
     (mkBookStack appProps (AwsRegion.code AwsRegion.oregon) bucketName)]

/-! ## Pipeline stack (`cdk/src/pipeline-stack.mts`) -/

/-- The `CdkPipeline` declaration: pipeline name, source wiring and build
commands, in declared order. -/
structure CdkPipelineCfg where
  pipelineName : String
  cdkDirectory : String
  repository : String
  branch : String
  commands : List String
  computeType : String
  deriving DecidableEq, Inhabited

/-- A pipeline wave: its name and the stage ids added to it, in order. -/
structure WaveCfg where
  waveName : String
  stageIds : List String
  deriving DecidableEq, Inhabited

/-- Resources declared by the `PlatformPipelineStack` constructor. -/
structure PlatformPipelineCfg where
  pipeline : CdkPipelineCfg
  waves : List WaveCfg
  deriving DecidableEq, Inhabited

/-- Embedding of the `PlatformPipelineStack` constructor (`pipeline-stack.mts`):
the `CdkPipeline` with its declared build commands and the single Dev regional
wave containing the `DevOregon` stage. -/
def mkPlatformPipeline (id repository branch : String) : PlatformPipelineCfg :=
  { pipeline :=
      { pipelineName := "Platform"
        cdkDirectory := "cdk"
        repository := repository
        branch := branch
        commands :=
          ["npm -g i pnpm",
           "pnpm -r i -frozen-lockfile --prefer-offline",
           "pnpm -r build",
           "pnpm -r test",
           "cd cdk",
           "pnpx cdk synth Platform"]
        computeType := "SMALL" }
    waves := [{ waveName := "DevRegionalWave", stageIds := [id ++ "-DevOregon"] }] }

/-- Modelled from the spec: the pipeline's build runner is CodeBuild/CodePipeline
behavior, not code in this repository.  Per the spec, build commands execute in
strict declared order and a non-zero exit at any step halts the build.  Given an
exit-code assignment for each command, returns the commands actually executed
(in order) and whether the build succeeded. -/
def runBuildSteps (exit : String → Nat) : List String → List String × Bool
  | [] => ([], true)
  | c :: rest =>
    if exit c = 0 then
      let r := runBuildSteps exit rest
      (c :: r.1, r.2)
    else ([c], false)

/-- An observable pipeline event: a build step executing, or a deploy action for
a stage id. -/
inductive PipelineEvent
  | buildStep (cmd : String)
  | deployStage (stageId : String)
  deriving DecidableEq, Inhabited

/-- Modelled from the spec: the pipeline executes its build commands in order and,
only if every build step exits zero, performs the deploy actions of its waves in
declaration order. -/
def runPipeline (cfg : PlatformPipelineCfg) (exit : String → Nat) : List PipelineEvent :=
  let r := runBuildSteps exit cfg.pipeline.commands
  r.1.map PipelineEvent.buildStep ++
    if r.2 then (cfg.waves.map (fun w => w.stageIds.map PipelineEvent.deployStage)).flatten
    else []

example :
    runPipeline (mkPlatformPipeline "Bookstack" "d3vb0ox/bookstack-demo" "main") (fun _ => 0)
      = ([("npm -g i pnpm" : String),
          "pnpm -r i -frozen-lockfile --prefer-offline",
          "pnpm -r build",
          "pnpm -r test",
          "cd cdk",
          "pnpx cdk synth Platform"].map PipelineEvent.buildStep
         ++ [PipelineEvent.deployStage "Bookstack-DevOregon"]) := by decide

example :
    runPipeline (mkPlatformPipeline "Bookstack" "d3vb0ox/bookstack-demo" "main")
      (fun c => if c = "pnpm -r test" then 1 else 0)
      = [PipelineEvent.buildStep "npm -g i pnpm",
         PipelineEvent.buildStep "pnpm -r i -frozen-lockfile --prefer-offline",
         PipelineEvent.buildStep "pnpm -r build",
         PipelineEvent.buildStep "pnpm -r test"] := by decide

/-! ## Helper definitions and lemmas shared by the claim theorems -/

/-- Modelled from the spec: the expected DNS record name, the app hostname with
its trailing dot-zone suffix removed (compared against the code's
`AppUrl.DevOregon.replace(and-dot-zone, to-empty)`). -/
def specRecordName (zone : Zone) : String :=
  String.mk ((AppUrl.host AppUrl.devOregon).toList.take
    ((AppUrl.host AppUrl.devOregon).toList.length - (zone.name.toList.length + 1)))

/-- Concrete `BookstackProps` used by witness theorems. -/
def demoProps : BookstackProps :=
  { removalPolicy := none
    appEnv := Env.dev
    logLevel := LogLevel.info
    zone := Zone.dev
    vpcId := "vpc-06f99c19165a865f5"
    databaseHost := "db.cluster.internal"
    databaseSecretName := "DatabaseSecretName" }

/-- Concrete `DataStackProps` used by witness theorems. -/
def demoDataProps : DataStackProps :=
  { removalPolicy := none, appEnv := Env.dev, logLevel := LogLevel.info, zone := Zone.dev }

/-- Exit-code assignment making `pnpm -r test` fail, used by a witness. -/
def failTestExit : String → Nat := fun c => if c = "pnpm -r test" then 1 else 0

theorem runBuildSteps_take (exit : String → Nat) (l : List String) :
    ∃ n, (runBuildSteps exit l).1 = l.take n := by
  induction l with
  | nil => exact ⟨0, rfl⟩
  | cons c rest ih =>
    by_cases h : exit c = 0
    · obtain ⟨n, hn⟩ := ih
      exact ⟨n + 1, by simp [runBuildSteps, h, hn]⟩
    · exact ⟨1, by simp [runBuildSteps, h]⟩

theorem runBuildSteps_fail (exit : String → Nat) (l : List String) (c : String)
    (hc : c ∈ l) (h : exit c ≠ 0) : (runBuildSteps exit l).2 = false := by
  induction l with
  | nil => cases hc
  | cons a rest ih =>
    rcases List.mem_cons.mp hc with rfl | hmem
    · simp [runBuildSteps, h]
    · by_cases ha : exit a = 0
      · simp [runBuildSteps, ha, ih hmem]
      · simp [runBuildSteps, ha]

/-! ## Claim theorems -/

/-- C1: in the regional composition stage, the `DataStack` is constructed before
the `BookStack`, and the `BookStack` receives as `databaseHost` exactly the data
stack's cluster endpoint hostname and as `databaseSecretName` exactly the data
stack's generated secret name — never a forward reference. -/
theorem c1_stage_orders_data_before_app (props : RegionalStageProps)
    (vpcCidr secretName endpointHostname bucketName : String) :
    ∃ d ap acfg,
      mkBookstackStage props vpcCidr secretName endpointHostname bucketName
        = [StageStack.dataLayer d, StageStack.appLayer ap acfg]
      ∧ ap.databaseHost = d.cluster.endpointHostname
      ∧ ap.databaseSecretName = d.databaseSecret.name :=
  ⟨_, _, _, rfl, rfl, rfl⟩

/-- C2: every service the application layer declares binds `DB_PASSWORD` as a
secret read from the database secret under key `password` and `APP_KEY` as a
secret read from the secure parameter `/app/bookstack/app_key`; neither appears
among the plaintext environment variables. -/
theorem c2_secret_bindings (props : BookstackProps) (region bucketName : String) :
    ∀ svc ∈ (mkBookStack props region bucketName).services,
      svc.secrets =
        [("DB_PASSWORD", SecretSource.secretsManagerField props.databaseSecretName "password"),
         ("APP_KEY", SecretSource.ssmSecureParameter "/app/bookstack/app_key" 1)]
      ∧ ∀ kv ∈ svc.environment, kv.1 ≠ "DB_PASSWORD" ∧ kv.1 ≠ "APP_KEY" := by
  intro svc hsvc
  simp only [mkBookStack, List.mem_singleton] at hsvc
  subst hsvc
  refine ⟨rfl, ?_⟩
  intro kv hkv
  simp only [List.mem_cons, List.not_mem_nil, or_false] at hkv
  rcases hkv with rfl | rfl | rfl | rfl | rfl | rfl | rfl | rfl <;>
    exact ⟨by simp, by simp⟩

/-- Witness for C2 at concrete props. -/
theorem c2_secret_bindings_witness :
    ((mkBookStack demoProps "us-west-2" "assets").services.headI).secrets =
        [("DB_PASSWORD", SecretSource.secretsManagerField "DatabaseSecretName" "password"),
         ("APP_KEY", SecretSource.ssmSecureParameter "/app/bookstack/app_key" 1)]
      ∧ ("APP_LANG", ("en" : String)).1 ≠ "DB_PASSWORD" := by
  have h := c2_secret_bindings demoProps "us-west-2" "assets"
      (mkBookStack demoProps "us-west-2" "assets").services.headI (by decide)
  exact ⟨h.1, (h.2 ("APP_LANG", "en") (by decide)).1⟩

/-- C3: the application layer's port-80 HTTP listener's only action is a
permanent redirect to HTTPS port 443 and it never forwards to a target group;
forward actions appear only on the port-443 listener. -/
theorem c3_http_listener_redirect_only (props : BookstackProps) (region bucketName : String) :
    (∀ l ∈ (mkBookStack props region bucketName).listeners, l.port = 80 →
      l.actions = [ListenerAction.redirect "HTTPS" 443 true]
      ∧ ∀ a ∈ l.actions, ∀ tg p, a ≠ ListenerAction.forward tg p)
    ∧ (∀ l ∈ (mkBookStack props region bucketName).listeners,
        ∀ a ∈ l.actions, (∃ tg p, a = ListenerAction.forward tg p) → l.port = 443) := by
  constructor
  · intro l hl hp
    simp only [mkBookStack, List.mem_cons, List.not_mem_nil, or_false] at hl
    rcases hl with rfl | rfl
    · refine ⟨rfl, ?_⟩
      intro a ha tg p
      simp only [List.mem_singleton] at ha
      subst ha
      intro hcon
      exact ListenerAction.noConfusion hcon
    · exact absurd hp (by decide)
  · intro l hl a ha hfa
    simp only [mkBookStack, List.mem_cons, List.not_mem_nil, or_false] at hl
    rcases hl with rfl | rfl
    · simp only [List.mem_singleton] at ha
      obtain ⟨tg, p, hforward⟩ := hfa
      rw [ha] at hforward
      cases hforward
    · rfl

/-- Witness for C3 at concrete props. -/
theorem c3_http_listener_redirect_only_witness :
    ((mkBookStack demoProps "us-west-2" "assets").listeners.headI).actions
      = [ListenerAction.redirect "HTTPS" 443 true] := by
  have h := c3_http_listener_redirect_only demoProps "us-west-2" "assets"
  exact (h.1 (mkBookStack demoProps "us-west-2" "assets").listeners.headI
    (by decide) (by decide)).1

/-- C4: the database security group's only ingress rule admits the VPC CIDR on
TCP 3306, the writer instance is not publicly accessible, and the cluster sits
in private isolated subnets. -/
theorem c4_db_ingress_vpc_only (props : DataStackProps)
    (vpcCidr secretName endpointHostname : String) :
    (mkDataStack props vpcCidr secretName endpointHostname).dbSecurityGroup.ingress
        = [{ peer := IngressPeer.ipv4Cidr vpcCidr
             tcpPort := 3306
             description := "Allow MySQL from VPC" }]
    ∧ (∀ r ∈ (mkDataStack props vpcCidr secretName endpointHostname).dbSecurityGroup.ingress,
        r.peer = IngressPeer.ipv4Cidr vpcCidr ∧ r.tcpPort = 3306)
    ∧ (mkDataStack props vpcCidr secretName endpointHostname).cluster.writer.publiclyAccessible
        = false
    ∧ (mkDataStack props vpcCidr secretName endpointHostname).cluster.subnetType
        = SubnetType.privateIsolated := by
  refine ⟨rfl, ?_, rfl, rfl⟩
  intro r hr
  simp only [mkDataStack, List.mem_singleton] at hr
  subst hr
  exact ⟨rfl, rfl⟩

/-- Witness for C4 at concrete props. -/
theorem c4_db_ingress_vpc_only_witness :
    (⟨IngressPeer.ipv4Cidr "10.0.0.0/16", 3306, "Allow MySQL from VPC"⟩ : IngressRule).peer
        = IngressPeer.ipv4Cidr "10.0.0.0/16" := by
  have h := c4_db_ingress_vpc_only demoDataProps "10.0.0.0/16" "sec" "host"
  exact (h.2.1 ⟨IngressPeer.ipv4Cidr "10.0.0.0/16", 3306, "Allow MySQL from VPC"⟩ (by decide)).1

/-- C5: the data layer generates the credential with fixed length 32 and
punctuation excluded, sets a backup retention and windows, enables storage
encryption, and enables deletion protection. -/
theorem c5_database_hardening (props : DataStackProps)
    (vpcCidr secretName endpointHostname : String) :
    (mkDataStack props vpcCidr secretName endpointHostname).databaseSecret.generate.passwordLength
        = 32
    ∧ (mkDataStack props vpcCidr secretName endpointHostname).databaseSecret.generate.excludePunctuation
        = true
    ∧ (mkDataStack props vpcCidr secretName endpointHostname).cluster.backup
        = { retentionDays := 7, preferredWindow := "03:00-04:00" }
    ∧ (mkDataStack props vpcCidr secretName endpointHostname).cluster.preferredMaintenanceWindow
        = "sun:04:00-sun:05:00"
    ∧ (mkDataStack props vpcCidr secretName endpointHostname).cluster.storageEncrypted = true
    ∧ (mkDataStack props vpcCidr secretName endpointHostname).cluster.deletionProtection = true :=
  ⟨rfl, rfl, rfl, rfl, rfl, rfl⟩

/-- C6 counterexample: the assets bucket declaration sets `blockPublicAcls` and
`ignorePublicAcls` to `false`, so the claim that all public-access settings are
blocking fails at this concrete input (and indeed at every removal policy). -/
theorem c6_counterexample :
    (mkAssetsBucket (some RemovalPolicy.retain) "assets").blockPublicAcls = false
    ∧ (mkAssetsBucket (some RemovalPolicy.retain) "assets").ignorePublicAcls = false := by
  decide

/-- C6 (amended): for every removal policy the storage declaration is private —
`publicReadAccess` is false and `blockPublicPolicy` and `restrictPublicBuckets`
are set — but `blockPublicAcls` and `ignorePublicAcls` are false, so not all
public-access settings block. -/
theorem c6_storage_private_amended (rp : Option RemovalPolicy) (name : String) :
    (mkAssetsBucket rp name).publicReadAccess = false
    ∧ (mkAssetsBucket rp name).blockPublicPolicy = true
    ∧ (mkAssetsBucket rp name).restrictPublicBuckets = true
    ∧ (mkAssetsBucket rp name).blockPublicAcls = false
    ∧ (mkAssetsBucket rp name).ignorePublicAcls = false :=
  ⟨rfl, rfl, rfl, rfl, rfl⟩

/-- C7: the application layer declares exactly one service/task definition with
port 80, 1024 CPU units, 2048 MiB memory, one desired replica, ARM64, and the
contracted environment variables including the bucket name and stack region. -/
theorem c7_service_contract (props : BookstackProps) (region bucketName : String) :
    (mkBookStack props region bucketName).services =
      [{ serviceName := "bookstack-service"
         image := "ghcr.io/linuxserver/bookstack:latest"
         port := 80
         cpu := 1024
         memoryLimitMiB := 2048
         desiredCount := 1
         subnetType := SubnetType.privateIsolated
         environment :=
           [("APP_LANG", "en"),
            ("APP_URL", "https://" ++ AppUrl.host AppUrl.devOregon),
            ("DB_HOST", props.databaseHost),
            ("DB_USERNAME", "bookstack"),
            ("DB_DATABASE", "bookstack"),
            ("STORAGE_TYPE", "s3"),
            ("STORAGE_S3_BUCKET", (mkBookStack props region bucketName).assetsBucket.name),
            ("STORAGE_S3_REGION", region)]
         secrets :=
           [("DB_PASSWORD", SecretSource.secretsManagerField props.databaseSecretName "password"),
            ("APP_KEY", SecretSource.ssmSecureParameter "/app/bookstack/app_key" 1)]
         enableRollback := true
         enableExecuteCommand := true
         cpuArchitecture := "ARM64" }] := rfl

/-- C8: whenever the app hostname ends with a dot followed by the zone name, the
application layer creates exactly one alias record, named the hostname with the
zone suffix removed, targeting the load balancer. -/
theorem c8_dns_record_name (props : BookstackProps) (region bucketName : String)
    (h : ('.' :: props.zone.name.toList).isSuffixOf
        (AppUrl.host AppUrl.devOregon).toList = true) :
    (mkBookStack props region bucketName).dnsRecords
      = [{ recordName := specRecordName props.zone, target := RecordTarget.albAlias }] := by
  rcases props with ⟨rp, e, ll, z, v, dh, dsn⟩
  cases z
  simp only [mkBookStack, specRecordName]
  decide

/-- Witness for C8: the concrete hostname/zone pair of this repository. -/
theorem c8_dns_record_name_witness :
    (('.' :: (Zone.name Zone.dev).toList).isSuffixOf
        (AppUrl.host AppUrl.devOregon).toList = true)
    ∧ (mkBookStack demoProps "us-west-2" "assets").dnsRecords
        = [{ recordName := specRecordName Zone.dev, target := RecordTarget.albAlias }] :=
  ⟨by decide, c8_dns_record_name demoProps "us-west-2" "assets" (by decide)⟩

/-- C9: the pipeline declares dependency install before compile before test
before synthesize; the build runner executes the declared commands in order
(always a prefix of the declared list), and if any declared command exits
non-zero then no deploy action of any stage occurs. -/
theorem c9_build_order_halts_before_deploy (id repository branch : String) :
    ((mkPlatformPipeline id repository branch).pipeline.commands.indexOf
        "pnpm -r i -frozen-lockfile --prefer-offline"
      < (mkPlatformPipeline id repository branch).pipeline.commands.indexOf "pnpm -r build"
    ∧ (mkPlatformPipeline id repository branch).pipeline.commands.indexOf "pnpm -r build"
      < (mkPlatformPipeline id repository branch).pipeline.commands.indexOf "pnpm -r test"
    ∧ (mkPlatformPipeline id repository branch).pipeline.commands.indexOf "pnpm -r test"
      < (mkPlatformPipeline id repository branch).pipeline.commands.indexOf
          "pnpx cdk synth Platform")
    ∧ (∀ exit : String → Nat, ∃ n,
        (runBuildSteps exit (mkPlatformPipeline id repository branch).pipeline.commands).1
          = (mkPlatformPipeline id repository branch).pipeline.commands.take n)
    ∧ (∀ exit : String → Nat,
        ∀ c ∈ (mkPlatformPipeline id repository branch).pipeline.commands, exit c ≠ 0 →
        ∀ s, PipelineEvent.deployStage s
          ∉ runPipeline (mkPlatformPipeline id repository branch) exit) := by
  refine ⟨⟨?_, ?_, ?_⟩, ?_, ?_⟩
  · simp only [mkPlatformPipeline]
    decide
  · simp only [mkPlatformPipeline]
    decide
  · simp only [mkPlatformPipeline]
    decide
  · intro exit
    exact runBuildSteps_take exit _
  · intro exit c hc h0 s hmem
    have hf := runBuildSteps_fail exit
      (mkPlatformPipeline id repository branch).pipeline.commands c hc h0
    simp [runPipeline, hf] at hmem

/-- Witness for C9: with an exit assignment failing `pnpm -r test`, no deploy
action for the Dev Oregon stage occurs. -/
theorem c9_build_order_halts_before_deploy_witness :
    ("pnpm -r test" ∈ (mkPlatformPipeline "Bookstack" "d3vb0ox/bookstack-demo" "main").pipeline.commands)
    ∧ failTestExit "pnpm -r test" ≠ 0
    ∧ PipelineEvent.deployStage "Bookstack-DevOregon"
        ∉ runPipeline (mkPlatformPipeline "Bookstack" "d3vb0ox/bookstack-demo" "main") failTestExit := by
  refine ⟨by decide, by decide, ?_⟩
  exact (c9_build_order_halts_before_deploy "Bookstack" "d3vb0ox/bookstack-demo" "main").2.2
    failTestExit "pnpm -r test" (by decide) (by decide) "Bookstack-DevOregon"

/-- C10: for every removal-policy prop the generated credential secret is
declared with removal policy RETAIN, while the security group, parameter group
and cluster follow the passed policy defaulting to DESTROY. -/
theorem c10_secret_retained (props : DataStackProps)
    (vpcCidr secretName endpointHostname : String) :
    (mkDataStack props vpcCidr secretName endpointHostname).databaseSecret.removalPolicy
        = RemovalPolicy.retain
    ∧ (mkDataStack props vpcCidr secretName endpointHostname).dbSecurityGroup.removalPolicy
        = props.removalPolicy.getD RemovalPolicy.destroy
    ∧ (mkDataStack props vpcCidr secretName endpointHostname).parameterGroupRemovalPolicy
        = props.removalPolicy.getD RemovalPolicy.destroy
    ∧ (mkDataStack props vpcCidr secretName endpointHostname).cluster.removalPolicy
        = props.removalPolicy.getD RemovalPolicy.destroy := by
  refine ⟨rfl, rfl, rfl, ?_⟩
  rcases props with ⟨rp, e, ll, z⟩
  rcases rp with _ | v
  · rfl
  · cases v <;> rfl

end Bookstack
